import Mathlib

/-!
# Verification of the `input_fsm` transition engine

A shallow embedding of `custom_components/input_fsm/fsm_entity.py`
(class `FSMEntity`) together with the small amount of scheduler
machinery needed to reason about timeout firing.

Modelling conventions:
* Configuration records are the shapes guaranteed by the voluptuous
  schemas of `custom_components/input_fsm/__init__.py`
  (`TRANSITION_SCHEMA`, `STATE_SCHEMA`, `TIMEOUT_SCHEMA`,
  `ACTION_SCHEMA`): required string fields become `String`,
  `vol.Optional` fields become `Option`.
* The host template evaluator (`Template.async_render`) is an oracle
  `render : String → Except Unit String`: `Except.error` stands for the
  Python exception path of `_eval_guard`, `Except.ok s` for a rendered
  string.  Likewise service dispatch (`hass.services.async_call`) is an
  oracle returning `none` on success and `some msg` when it raises.
* Python float `seconds` is modelled as `Rat`; only the comparison
  `seconds > 0` matters to the code under study.
* The `asyncio` lock serializes every mutating operation, so the
  semantics is an interleaving of atomic steps on an `Env`:
  the entity fields plus the host scheduler state.  `async_call_later`
  registers a timer; firing enqueues a `_timeout_transition` task
  (`hass.async_create_task`), which later runs under the lock.
* Event emission (`_fire_event`) is externally observable output; it is
  returned alongside the new state rather than stored in it.
-/

namespace InputFsm

/-- `WILDCARD` from `const.py`. -/
def WILDCARD : String := "*"

/-- One entry of the `states:` list (`STATE_SCHEMA`). -/
structure StateDef where
  name : String
  description : String
  deriving Repr, DecidableEq

/-- The optional `timeout:` block of a transition (`TIMEOUT_SCHEMA`). -/
structure TimeoutCfg where
  seconds : Rat
  dest : String
  deriving Repr, DecidableEq

/-- One entry of a transition's `actions:` list (`ACTION_SCHEMA`). -/
structure ActionDef where
  service : String
  data : List (String × String)
  deriving Repr, DecidableEq

/-- One entry of the `transitions:` list (`TRANSITION_SCHEMA`). -/
structure TransitionDef where
  trigger : String
  source : String
  dest : String
  guard : Option String
  timeout : Option TimeoutCfg
  actions : List ActionDef
  deriving Repr, DecidableEq

/-- An element of `self._recent` (`transition_id` is absent for the
`set_state` and `timeout` entries). -/
structure HistEntry where
  transitionId : Option String
  trig : String
  fromState : String
  toState : String
  deriving Repr, DecidableEq

/-- The three event kinds of `const.py`. -/
inductive EventKind where
  | started
  | succeeded
  | failed
  deriving Repr, DecidableEq

/-- One element of the `actions_status` list built by `_run_actions`. -/
structure ActionResult where
  service : String
  ok : Bool
  error : Option String
  deriving Repr, DecidableEq

/-- The payload fields of `_fire_event` calls that carry information
(`entity_id` is omitted; `_fire_event` drops `None`-valued keys, which
we keep as `Option` fields). -/
structure Event where
  kind : EventKind
  transitionId : Option String
  reason : Option String
  trig : Option String
  fromState : Option String
  toState : Option String
  guardValue : Option String
  actionsStatus : Option (List ActionResult)
  deriving Repr, DecidableEq

/-- The mutable fields of `FSMEntity`: `_initial`, `_state`,
`_state_definitions`, `_transitions`, `_timeout_unsub`, `_recent`.
The unsub closure of `async_call_later` is modelled as the identifier
of the scheduler timer it would cancel. -/
structure FSM where
  initial : String
  state : String
  stateDefinitions : List StateDef
  transitions : List TransitionDef
  timeoutUnsub : Option Nat
  recent : List HistEntry
  deriving Repr, DecidableEq

/-- The entity together with the host scheduler: `timers` are the
registered-but-not-yet-fired `async_call_later` timers (identifier and
timeout destination), `tasks` the `_timeout_transition dest` coroutines
already created by a fired timer's callback and waiting for the lock,
`nextId` a fresh timer identifier. -/
structure Env where
  fsm : FSM
  timers : List (Nat × String)
  tasks : List String
  nextId : Nat
  deriving Repr, DecidableEq

/-- `name in self._state_lookup` where
`_state_lookup = {s.get("name"): s for s in self._state_definitions}`:
membership in the dict's key set. -/
def declared (fsm : FSM) (n : String) : Bool :=
  fsm.stateDefinitions.any (fun s => s.name == n)

/-- The match condition of the resolution loop of `async_trigger`
(lines 107-111): same trigger and source equal to the current state or
to the wildcard. -/
def matchesTransition (trig st : String) (t : TransitionDef) : Bool :=
  t.trigger == trig && (t.source == st || t.source == WILDCARD)

/-- The resolution loop of `async_trigger`: first transition in
declaration order satisfying `matchesTransition`, else `none`. -/
def findTransition (trig st : String) : List TransitionDef → Option TransitionDef
  | [] => none
  | t :: ts => if matchesTransition trig st t then some t else findTransition trig st ts

/-- Characters stripped by Python `str.strip()` (ASCII fragment). -/
def isPyWhitespace (c : Char) : Bool :=
  c == ' ' || c == '\t' || c == '\n' || c == '\r' || c == '\x0b' || c == '\x0c'

/-- Python `str.strip()` (ASCII whitespace model). -/
def pyStrip (s : String) : String :=
  String.mk (((s.data.dropWhile isPyWhitespace).reverse.dropWhile isPyWhitespace).reverse)

/-- Python `str.lower()` (ASCII model). -/
def pyLower (s : String) : String :=
  String.mk (s.data.map Char.toLower)

/-- Python `str(b)` on a bool. -/
def pyStrBool (b : Bool) : String :=
  if b then "True" else "False"

/-- `_eval_guard` (lines 192-203): render the template; on an
exception return `False`; otherwise strip, lowercase and compare with
the truthy tuple `("1", "true", "yes", "on")`. -/
def evalGuard (render : String → Except Unit String) (expr : String) : Bool :=
  match render expr with
  | Except.error _ => false
  | Except.ok rendered =>
      let val := pyLower (pyStrip rendered)
      val == "1" || val == "true" || val == "yes" || val == "on"

/-- One iteration of `_run_actions` (lines 207-220): empty or dot-free
service names are rejected locally as `bad_service`; otherwise the
dispatch oracle is consulted on the two segments split at the first
dot. -/
def runAction (dispatch : String → String → Option String) (act : ActionDef) :
    ActionResult :=
  if act.service == "" || !(act.service.contains '.') then
    { service := act.service, ok := false, error := some "bad_service" }
  else
    let domain := String.mk (act.service.data.takeWhile (fun c => c ≠ '.'))
    let service := String.mk ((act.service.data.dropWhile (fun c => c ≠ '.')).drop 1)
    match dispatch domain service with
    | none => { service := act.service, ok := true, error := none }
    | some e => { service := act.service, ok := false, error := some e }

/-- `_run_actions` over the action list. -/
def runActions (dispatch : String → String → Option String)
    (acts : List ActionDef) : List ActionResult :=
  acts.map (runAction dispatch)

/-- `_cancel_timeout` (lines 240-244): when a handle is held, call the
unsub (removing the timer if it has not fired yet — a no-op otherwise)
and clear the handle. -/
def cancelTimeout (env : Env) : Env :=
  match env.fsm.timeoutUnsub with
  | none => env
  | some h =>
      { env with
        fsm := { env.fsm with timeoutUnsub := none },
        timers := env.timers.filter (fun p => p.1 ≠ h) }

/-- `_schedule_timeout` (lines 223-229): register a fresh timer with
the host scheduler and store its handle in `_timeout_unsub`. -/
def scheduleTimeout (dest : String) (env : Env) : Env :=
  { env with
    fsm := { env.fsm with timeoutUnsub := some env.nextId },
    timers := env.timers ++ [(env.nextId, dest)],
    nextId := env.nextId + 1 }

/-- Result of one `async_trigger` call: the new environment, the
returned boolean, and the events fired during the call. -/
structure TriggerOut where
  env : Env
  result : Bool
  events : List Event
  deriving Repr, DecidableEq

/-- The commit path of `async_trigger` (lines 140-175): emit
`transition_started`, write the new state, cancel any armed timeout,
arm the new one when `seconds > 0` and the timeout destination is
declared, run the actions, append the history entry, emit
`transition_succeeded`, return `True`. -/
def commitTransition (dispatch : String → String → Option String)
    (tid trig : String) (t : TransitionDef) (guardVal : Option Bool)
    (env : Env) : TriggerOut :=
  let prev := env.fsm.state
  let startedEv : Event :=
    { kind := EventKind.started, transitionId := some tid, reason := none,
      trig := some trig, fromState := some prev, toState := some t.dest,
      guardValue := guardVal.map pyStrBool, actionsStatus := none }
  let env1 : Env := { env with fsm := { env.fsm with state := t.dest } }
  let env2 := cancelTimeout env1
  let env3 :=
    match t.timeout with
    | some tc =>
        if 0 < tc.seconds ∧ declared env2.fsm tc.dest = true then
          scheduleTimeout tc.dest env2
        else env2
    | none => env2
  let acts := runActions dispatch t.actions
  let env4 : Env :=
    { env3 with
      fsm := { env3.fsm with
        recent := env3.fsm.recent ++
          [{ transitionId := some tid, trig := trig, fromState := prev, toState := t.dest }] } }
  let succEv : Event :=
    { kind := EventKind.succeeded, transitionId := some tid, reason := none,
      trig := some trig, fromState := some prev, toState := some t.dest,
      guardValue := none, actionsStatus := some acts }
  { env := env4, result := true, events := [startedEv, succEv] }

/-- `async_trigger` (lines 103-175).  `tid` stands for the generated
`uuid.uuid4()` transition identifier. -/
def asyncTrigger (render : String → Except Unit String)
    (dispatch : String → String → Option String)
    (tid trig : String) (env : Env) : TriggerOut :=
  match findTransition trig env.fsm.state env.fsm.transitions with
  | none =>
      { env := env, result := false,
        events := [{ kind := EventKind.failed, transitionId := some tid,
                     reason := some "no_matching_transition", trig := some trig,
                     fromState := some env.fsm.state, toState := none,
                     guardValue := none, actionsStatus := none }] }
  | some t =>
      let guardVal : Option Bool := t.guard.map (fun g => evalGuard render g)
      if guardVal = some false then
        { env := env, result := false,
          events := [{ kind := EventKind.failed, transitionId := some tid,
                       reason := some "guard_false", trig := some trig,
                       fromState := some env.fsm.state, toState := none,
                       guardValue := some (pyStrBool false), actionsStatus := none }] }
      else
        commitTransition dispatch tid trig t guardVal env

/-- `async_set_state` (lines 177-187): reject undeclared names with no
mutation; otherwise write the state, cancel any pending timeout and
append a `set_state` history entry. -/
def asyncSetState (st : String) (env : Env) : Env × Bool :=
  if declared env.fsm st then
    let prev := env.fsm.state
    let env1 : Env := { env with fsm := { env.fsm with state := st } }
    let env2 := cancelTimeout env1
    let env3 : Env :=
      { env2 with
        fsm := { env2.fsm with
          recent := env2.fsm.recent ++
            [{ transitionId := none, trig := "set_state", fromState := prev, toState := st }] } }
    (env3, true)
  else
    (env, false)

/-- `async_reset` (lines 189-190): exactly `async_set_state(self._initial)`
(the boolean is discarded by the Python method; we keep it). -/
def asyncReset (env : Env) : Env × Bool :=
  asyncSetState env.fsm.initial env

/-- The partial-update record accepted by `async_apply_config`
(`cfg.get(...)` with the previous value as default). -/
structure ConfigPatch where
  initial : Option String
  states : Option (List StateDef)
  transitions : Option (List TransitionDef)
  deriving Repr, DecidableEq

/-- `async_apply_config` (lines 84-101): cancel the pending timeout,
replace the configured fields (absent fields keep their prior values),
and reset `_state` to the (new) initial state when the old state is no
longer declared. -/
def asyncApplyConfig (cfg : ConfigPatch) (env : Env) : Env :=
  let env0 := cancelTimeout env
  let oldState := env0.fsm.state
  let fsm1 : FSM :=
    { env0.fsm with
      initial := cfg.initial.getD env0.fsm.initial,
      stateDefinitions := cfg.states.getD env0.fsm.stateDefinitions,
      transitions := cfg.transitions.getD env0.fsm.transitions }
  let fsm2 : FSM :=
    if declared fsm1 oldState then fsm1 else { fsm1 with state := fsm1.initial }
  { env0 with fsm := fsm2 }

/-- A registered timer elapses: the host scheduler consumes it and its
callback `_cb` (line 224-225) creates a `_timeout_transition dest`
task.  Note that `_timeout_unsub` is not touched here — the stored
unsub closure merely becomes a no-op. -/
def fireTimer (h : Nat) (env : Env) : Env :=
  match env.timers.find? (fun p => p.1 == h) with
  | none => env
  | some pr =>
      { env with
        timers := env.timers.filter (fun p => p.1 ≠ h),
        tasks := env.tasks ++ [pr.2] }

/-- A queued `_timeout_transition` task acquires the lock and runs
(lines 231-238): unconditionally write `dest`, append a `timeout`
history entry and clear the handle field. -/
def runTimeoutTask (env : Env) : Env :=
  match env.tasks with
  | [] => env
  | dest :: rest =>
      let prev := env.fsm.state
      { env with
        fsm := { env.fsm with
          state := dest,
          recent := env.fsm.recent ++
            [{ transitionId := none, trig := "timeout", fromState := prev, toState := dest }],
          timeoutUnsub := none },
        tasks := rest }

/-- The `recent_transitions` attribute (line 74): the slice
`self._recent[-10:]`. -/
def recentTransitions (fsm : FSM) : List HistEntry :=
  fsm.recent.drop (fsm.recent.length - 10)

/-- The arming condition of `async_trigger` lines 157-160: a `timeout`
block with positive `seconds` and a currently declared destination. -/
def armsTimeout (fsm : FSM) (t : TransitionDef) : Bool :=
  match t.timeout with
  | some tc => decide (0 < tc.seconds) && declared fsm tc.dest
  | none => false

/-- The timer registered by a committing `async_trigger` call, when the
arming condition holds. -/
def armedTimer (fsm : FSM) (t : TransitionDef) (nid : Nat) : List (Nat × String) :=
  match t.timeout with
  | some tc => if armsTimeout fsm t then [(nid, tc.dest)] else []
  | none => []

/-- The guard contract stated in the specification's own words: the
template renders without an exception and the rendered value, stripped
and lowercased, is one of the four truthy strings. -/
def guardPassesSpec (render : String → Except Unit String) (expr : String) : Prop :=
  ∃ s, render expr = Except.ok s ∧
    pyLower (pyStrip s) ∈ (["1", "true", "yes", "on"] : List String)

/-! ### Concrete instances used as witnesses and counterexamples -/

/-- A render oracle that always raises (the `except` path of
`_eval_guard`). -/
def renderFail : String → Except Unit String := fun _ => Except.error ()

/-- A render oracle that always renders the fixed string `out`. -/
def renderOf (out : String) : String → Except Unit String := fun _ => Except.ok out

/-- A dispatch oracle whose service calls always succeed. -/
def dispatchOk : String → String → Option String := fun _ _ => none

/-- `{trigger: go, source: a, dest: b, timeout: {seconds: 5, dest: c}}`. -/
def goT : TransitionDef := ⟨"go", "a", "b", none, some ⟨5, "c"⟩, []⟩

/-- `{trigger: again, source: b, dest: b, timeout: {seconds: 7, dest: d}}`. -/
def againT : TransitionDef := ⟨"again", "b", "b", none, some ⟨7, "d"⟩, []⟩

/-- `{trigger: any, source: *, dest: a, timeout: {seconds: 3, dest: d}}`. -/
def anyT : TransitionDef := ⟨"any", "*", "a", none, some ⟨3, "d"⟩, []⟩

/-- A four-state machine whose transitions all arm timeouts. -/
def raceFsm : FSM :=
  { initial := "a", state := "a",
    stateDefinitions := [⟨"a", ""⟩, ⟨"b", ""⟩, ⟨"c", ""⟩, ⟨"d", ""⟩],
    transitions := [goT, againT, anyT],
    timeoutUnsub := none, recent := [] }

def raceEnv : Env := ⟨raceFsm, [], [], 0⟩

/-- `trigger("go")` commits `a → b` and arms timer `0` towards `c`. -/
def raceArmed : Env := (asyncTrigger renderFail dispatchOk "t1" "go" raceEnv).env

/-- Timer `0` elapses: its `_timeout_transition "c"` task is queued but
has not yet acquired the lock. -/
def raceFired : Env := fireTimer 0 raceArmed

/-- Before the queued task runs, `set_state("a")` takes the lock and
cancels the pending timeout — the firing is now superseded. -/
def raceCancelled : Env := (asyncSetState "a" raceFired).1

/-- The superseded task finally acquires the lock and runs. -/
def raceLate : Env := runTimeoutTask raceCancelled

/-- Variant interleaving: before the queued task runs, `trigger("again")`
commits `b → b` and arms a fresh timer `1` towards `d`. -/
def raceRearmed : Env := (asyncTrigger renderFail dispatchOk "t2" "again" raceFired).env

/-- The stale task then runs, clobbering the handle of timer `1`. -/
def raceLate2 : Env := runTimeoutTask raceRearmed

/-- `trigger("any")` then arms timer `2` — while timer `1` is still
registered with the scheduler and no longer cancellable. -/
def raceTwoTimers : Env := (asyncTrigger renderFail dispatchOk "t3" "any" raceLate2).env

/-- One declared state with a self-loop transition. -/
def loopFsm : FSM :=
  { initial := "idle", state := "idle",
    stateDefinitions := [⟨"idle", ""⟩],
    transitions := [⟨"tick", "idle", "idle", none, none, []⟩],
    timeoutUnsub := none, recent := [] }

def loopEnv : Env := ⟨loopFsm, [], [], 0⟩

/-- `n` consecutive `trigger("tick")` calls. -/
def tickN : Nat → Env → Env
  | 0, e => e
  | n + 1, e => tickN n (asyncTrigger renderFail dispatchOk "t" "tick" e).env

/-- A machine loaded with an undeclared `initial` state `"ghost"` (the
permissive-load policy logs this but constructs the entity anyway). -/
def ghostFsm : FSM :=
  { initial := "ghost", state := "ghost",
    stateDefinitions := [⟨"idle", ""⟩],
    transitions := [], timeoutUnsub := none, recent := [] }

def ghostEnv : Env := ⟨ghostFsm, [], [], 0⟩

/-- A machine whose only transition's `dest` names no declared state
(permissively loaded; `_log_transition_issues` merely logs it). -/
def nowhereFsm : FSM :=
  { initial := "idle", state := "idle",
    stateDefinitions := [⟨"idle", ""⟩],
    transitions := [⟨"go", "idle", "nowhere", none, none, []⟩],
    timeoutUnsub := none, recent := [] }

def nowhereEnv : Env := ⟨nowhereFsm, [], [], 0⟩

/-- A wildcard transition declared before a specific one, both matching
trigger `"x"` from state `"A"`. -/
def wildFirst : TransitionDef := ⟨"x", "*", "w", none, none, []⟩

def specSecond : TransitionDef := ⟨"x", "A", "s", none, none, []⟩

/-- A guarded transition `a → b`. -/
def guardT : TransitionDef := ⟨"go", "a", "b", some "expr", none, []⟩

def guardFsm : FSM :=
  { initial := "a", state := "a",
    stateDefinitions := [⟨"a", ""⟩, ⟨"b", ""⟩],
    transitions := [guardT],
    timeoutUnsub := none, recent := [] }

def guardEnv : Env := ⟨guardFsm, [], [], 0⟩

/-! ### Helper lemmas -/

theorem cancelTimeout_fsm_state (env : Env) :
    (cancelTimeout env).fsm.state = env.fsm.state := by
  unfold cancelTimeout; split <;> rfl

theorem cancelTimeout_fsm_initial (env : Env) :
    (cancelTimeout env).fsm.initial = env.fsm.initial := by
  unfold cancelTimeout; split <;> rfl

theorem cancelTimeout_fsm_stateDefinitions (env : Env) :
    (cancelTimeout env).fsm.stateDefinitions = env.fsm.stateDefinitions := by
  unfold cancelTimeout; split <;> rfl

theorem cancelTimeout_fsm_transitions (env : Env) :
    (cancelTimeout env).fsm.transitions = env.fsm.transitions := by
  unfold cancelTimeout; split <;> rfl

theorem cancelTimeout_fsm_recent (env : Env) :
    (cancelTimeout env).fsm.recent = env.fsm.recent := by
  unfold cancelTimeout; split <;> rfl

theorem cancelTimeout_fsm_timeoutUnsub (env : Env) :
    (cancelTimeout env).fsm.timeoutUnsub = none := by
  unfold cancelTimeout; split
  · rename_i h; exact h
  · rfl

theorem cancelTimeout_tasks (env : Env) :
    (cancelTimeout env).tasks = env.tasks := by
  unfold cancelTimeout; split <;> rfl

theorem cancelTimeout_nextId (env : Env) :
    (cancelTimeout env).nextId = env.nextId := by
  unfold cancelTimeout; split <;> rfl

theorem cancelTimeout_timers_subset (env : Env) :
    ∀ p ∈ (cancelTimeout env).timers, p ∈ env.timers := by
  unfold cancelTimeout; split
  · intro p hp; exact hp
  · intro p hp; exact List.mem_of_mem_filter hp

theorem findTransition_mem {trig st : String} {ts : List TransitionDef}
    {t : TransitionDef} (hf : findTransition trig st ts = some t) : t ∈ ts := by
  induction ts with
  | nil => simp [findTransition] at hf
  | cons u us ih =>
      unfold findTransition at hf
      by_cases h : matchesTransition trig st u = true
      · rw [if_pos h] at hf
        exact (Option.some.injEq _ _ ▸ hf) ▸ List.mem_cons_self u us
      · rw [if_neg h] at hf
        exact List.mem_cons_of_mem u (ih hf)

theorem cancelTimeout_declared (env : Env) (n : String) :
    declared (cancelTimeout env).fsm n = declared env.fsm n := by
  unfold declared
  rw [cancelTimeout_fsm_stateDefinitions]

theorem cancelTimeout_timers (env : Env) :
    (cancelTimeout env).timers =
      match env.fsm.timeoutUnsub with
      | none => env.timers
      | some h => env.timers.filter (fun p => p.1 ≠ h) := by
  unfold cancelTimeout
  cases henv : env.fsm.timeoutUnsub <;> rfl

theorem commitTransition_result (d : String → String → Option String)
    (tid trg : String) (t : TransitionDef) (gv : Option Bool) (env : Env) :
    (commitTransition d tid trg t gv env).result = true := rfl

theorem commitTransition_state (d : String → String → Option String)
    (tid trg : String) (t : TransitionDef) (gv : Option Bool) (env : Env) :
    (commitTransition d tid trg t gv env).env.fsm.state = t.dest := by
  unfold commitTransition
  cases t.timeout with
  | none => simp [cancelTimeout_fsm_state]
  | some tc =>
      dsimp only
      split_ifs <;> simp [scheduleTimeout, cancelTimeout_fsm_state]

theorem commitTransition_stateDefinitions (d : String → String → Option String)
    (tid trg : String) (t : TransitionDef) (gv : Option Bool) (env : Env) :
    (commitTransition d tid trg t gv env).env.fsm.stateDefinitions
      = env.fsm.stateDefinitions := by
  unfold commitTransition
  cases t.timeout with
  | none => simp [cancelTimeout_fsm_stateDefinitions]
  | some tc =>
      dsimp only
      split_ifs <;> simp [scheduleTimeout, cancelTimeout_fsm_stateDefinitions]

theorem commitTransition_recent (d : String → String → Option String)
    (tid trg : String) (t : TransitionDef) (gv : Option Bool) (env : Env) :
    (commitTransition d tid trg t gv env).env.fsm.recent
      = env.fsm.recent ++ [⟨some tid, trg, env.fsm.state, t.dest⟩] := by
  unfold commitTransition
  cases t.timeout with
  | none => simp [cancelTimeout_fsm_recent]
  | some tc =>
      dsimp only
      split_ifs <;> simp [scheduleTimeout, cancelTimeout_fsm_recent]

theorem commitTransition_tasks (d : String → String → Option String)
    (tid trg : String) (t : TransitionDef) (gv : Option Bool) (env : Env) :
    (commitTransition d tid trg t gv env).env.tasks = env.tasks := by
  unfold commitTransition
  cases t.timeout with
  | none => simp [cancelTimeout_tasks]
  | some tc =>
      dsimp only
      split_ifs <;> simp [scheduleTimeout, cancelTimeout_tasks]

theorem armsTimeout_iff (env : Env) (t : TransitionDef) (tc : TimeoutCfg)
    (htc : t.timeout = some tc) :
    armsTimeout env.fsm t = true ↔
      (0 < tc.seconds ∧ declared env.fsm tc.dest = true) := by
  unfold armsTimeout
  rw [htc]
  simp [Bool.and_eq_true, decide_eq_true_iff]

theorem commitTransition_timeoutUnsub (d : String → String → Option String)
    (tid trg : String) (t : TransitionDef) (gv : Option Bool) (env : Env) :
    (commitTransition d tid trg t gv env).env.fsm.timeoutUnsub
      = (if armsTimeout env.fsm t then some env.nextId else none) := by
  unfold commitTransition
  cases htc : t.timeout with
  | none =>
      simp [armsTimeout, htc, cancelTimeout_fsm_timeoutUnsub]
  | some tc =>
      dsimp only
      by_cases h : 0 < tc.seconds ∧ declared env.fsm tc.dest = true
      · rw [if_pos, if_pos ((armsTimeout_iff env t tc htc).mpr h)]
        · simp [scheduleTimeout, cancelTimeout_nextId]
        · rw [cancelTimeout_declared]
          exact h
      · rw [if_neg, if_neg]
        · simp [cancelTimeout_fsm_timeoutUnsub]
        · intro hc; exact absurd ((armsTimeout_iff env t tc htc).mp hc) h
        · rw [cancelTimeout_declared]
          exact h

theorem commitTransition_timers (d : String → String → Option String)
    (tid trg : String) (t : TransitionDef) (gv : Option Bool) (env : Env) :
    (commitTransition d tid trg t gv env).env.timers
      = (cancelTimeout env).timers ++ armedTimer env.fsm t env.nextId := by
  unfold commitTransition
  have hcc : (cancelTimeout { env with fsm := { env.fsm with state := t.dest } }).timers
      = (cancelTimeout env).timers := by
    rw [cancelTimeout_timers, cancelTimeout_timers]
  cases htc : t.timeout with
  | none =>
      simp [armedTimer, htc, hcc]
  | some tc =>
      dsimp only
      by_cases h : 0 < tc.seconds ∧ declared env.fsm tc.dest = true
      · rw [if_pos]
        · simp only [scheduleTimeout, armedTimer, htc,
            if_pos ((armsTimeout_iff env t tc htc).mpr h), hcc, cancelTimeout_nextId]
        · rw [cancelTimeout_declared]
          exact h
      · rw [if_neg]
        · simp only [armedTimer, htc]
          rw [if_neg]
          · simp [hcc]
          · intro hc; exact absurd ((armsTimeout_iff env t tc htc).mp hc) h
        · rw [cancelTimeout_declared]
          exact h

theorem asyncTrigger_eq_commit (render : String → Except Unit String)
    (dispatch : String → String → Option String) (tid trig : String) (env : Env)
    (t : TransitionDef)
    (hf : findTransition trig env.fsm.state env.fsm.transitions = some t)
    (hok : t.guard.map (fun g => evalGuard render g) ≠ some false) :
    asyncTrigger render dispatch tid trig env
      = commitTransition dispatch tid trig t
          (t.guard.map (fun g => evalGuard render g)) env := by
  unfold asyncTrigger
  rw [hf]
  dsimp only
  rw [if_neg hok]

theorem asyncSetState_of_undeclared (st : String) (env : Env)
    (h : declared env.fsm st = false) :
    asyncSetState st env = (env, false) := by
  unfold asyncSetState
  simp [h]

theorem asyncSetState_of_declared (st : String) (env : Env)
    (h : declared env.fsm st = true) :
    (asyncSetState st env).2 = true
    ∧ (asyncSetState st env).1.fsm.state = st
    ∧ (asyncSetState st env).1.fsm.initial = env.fsm.initial
    ∧ (asyncSetState st env).1.fsm.stateDefinitions = env.fsm.stateDefinitions
    ∧ (asyncSetState st env).1.fsm.transitions = env.fsm.transitions
    ∧ (asyncSetState st env).1.fsm.timeoutUnsub = none
    ∧ (asyncSetState st env).1.fsm.recent
        = env.fsm.recent ++ [⟨none, "set_state", env.fsm.state, st⟩]
    ∧ (asyncSetState st env).1.timers = (cancelTimeout env).timers
    ∧ (asyncSetState st env).1.tasks = env.tasks := by
  unfold asyncSetState
  rw [if_pos h]
  have hcc : (cancelTimeout { env with fsm := { env.fsm with state := st } }).timers
      = (cancelTimeout env).timers := by
    rw [cancelTimeout_timers, cancelTimeout_timers]
  refine ⟨rfl, ?_, ?_, ?_, ?_, ?_, ?_, ?_, ?_⟩ <;>
    simp [cancelTimeout_fsm_state, cancelTimeout_fsm_initial,
      cancelTimeout_fsm_stateDefinitions, cancelTimeout_fsm_transitions,
      cancelTimeout_fsm_timeoutUnsub, cancelTimeout_fsm_recent,
      cancelTimeout_tasks, hcc]

theorem find?_append_singleton {α : Type} (p : α → Bool) (l : List α) (a : α)
    (hl : ∀ x ∈ l, p x = false) (ha : p a = true) :
    (l ++ [a]).find? p = some a := by
  induction l with
  | nil => simp [List.find?, ha]
  | cons x xs ih =>
      have hx := hl x (List.mem_cons_self x xs)
      rw [List.cons_append, List.find?_cons_of_neg _ (by simp [hx])]
      exact ih (fun y hy => hl y (List.mem_cons_of_mem x hy))

/-! ### Claim theorems -/

/-- C1.  Every `trigger` call either returns `false` having changed
nothing at all (in particular no state mutation and no
`transition_started` event), or returns `true` having set
`current_state` to the matched transition's `dest` — never a third
value. -/
theorem trigger_dichotomy (render : String → Except Unit String)
    (dispatch : String → String → Option String) (tid trig : String) (env : Env) :
    ((asyncTrigger render dispatch tid trig env).result = false
      ∧ (asyncTrigger render dispatch tid trig env).env = env
      ∧ EventKind.started ∉ ((asyncTrigger render dispatch tid trig env).events.map Event.kind))
    ∨ ((asyncTrigger render dispatch tid trig env).result = true
      ∧ ∃ t, findTransition trig env.fsm.state env.fsm.transitions = some t
          ∧ (asyncTrigger render dispatch tid trig env).env.fsm.state = t.dest) := by
  cases hf : findTransition trig env.fsm.state env.fsm.transitions with
  | none =>
      left
      unfold asyncTrigger
      rw [hf]
      refine ⟨rfl, rfl, ?_⟩
      simp
  | some t =>
      by_cases hg : t.guard.map (fun g => evalGuard render g) = some false
      · left
        unfold asyncTrigger
        rw [hf]
        dsimp only
        rw [if_pos hg]
        refine ⟨rfl, rfl, ?_⟩
        simp
      · right
        rw [asyncTrigger_eq_commit render dispatch tid trig env t hf hg]
        exact ⟨commitTransition_result _ _ _ _ _ _, t, rfl,
          commitTransition_state _ _ _ _ _ _⟩

theorem trigger_dichotomy_witness :
    (asyncTrigger renderFail dispatchOk "w1" "nope" ghostEnv).result = false
    ∧ (asyncTrigger renderFail dispatchOk "w1" "nope" ghostEnv).env = ghostEnv := by
  rcases trigger_dichotomy renderFail dispatchOk "w1" "nope" ghostEnv with
    ⟨h1, h2, _⟩ | ⟨h1, _⟩
  · exact ⟨h1, h2⟩
  · exact absurd h1 (by decide)

/-- C6.  Transition resolution returns `none` exactly when no
transition matches (same trigger and source equal to the current state
or the wildcard), and otherwise returns the first matching transition
in declaration order — wildcard entries get no precedence over
specific ones. -/
theorem findTransition_first_match (trig st : String) (ts : List TransitionDef) :
    (findTransition trig st ts = none ↔ ∀ t ∈ ts, matchesTransition trig st t = false)
    ∧ ∀ t, findTransition trig st ts = some t →
        matchesTransition trig st t = true
        ∧ ∃ pre post, ts = pre ++ t :: post
            ∧ ∀ u ∈ pre, matchesTransition trig st u = false := by
  induction ts with
  | nil =>
      refine ⟨by simp [findTransition], ?_⟩
      intro t h
      simp [findTransition] at h
  | cons u us ih =>
      constructor
      · constructor
        · intro h
          unfold findTransition at h
          by_cases hu : matchesTransition trig st u = true
          · rw [if_pos hu] at h
            exact absurd h (by simp)
          · rw [if_neg hu] at h
            intro t ht
            rcases List.mem_cons.mp ht with rfl | hmem
            · exact Bool.eq_false_iff.mpr hu
            · exact (ih.1.mp h) t hmem
        · intro h
          unfold findTransition
          rw [if_neg (by simp [h u (List.mem_cons_self u us)])]
          exact ih.1.mpr (fun t ht => h t (List.mem_cons_of_mem u ht))
      · intro t ht
        unfold findTransition at ht
        by_cases hu : matchesTransition trig st u = true
        · rw [if_pos hu] at ht
          obtain rfl := Option.some.inj ht
          exact ⟨hu, [], us, rfl, by simp⟩
        · rw [if_neg hu] at ht
          obtain ⟨hm, pre, post, heq, hpre⟩ := ih.2 t ht
          refine ⟨hm, u :: pre, post, by rw [heq, List.cons_append], ?_⟩
          intro v hv
          rcases List.mem_cons.mp hv with rfl | hv
          · exact Bool.eq_false_iff.mpr hu
          · exact hpre v hv

theorem findTransition_first_match_witness :
    matchesTransition "x" "A" wildFirst = true
    ∧ findTransition "x" "A" [wildFirst, specSecond] = some wildFirst := by
  have h := (findTransition_first_match "x" "A" [wildFirst, specSecond]).2
    wildFirst (by decide)
  exact ⟨h.1, by decide⟩

/-- C9.  `set_state` on an undeclared name returns `false` with no
mutation whatsoever; on a declared name it commits the state
unconditionally, cancels any pending timeout, appends a
`{trigger: set_state, from, to}` history entry and returns `true`. -/
theorem set_state_spec (st : String) (env : Env) :
    (declared env.fsm st = false ∧ asyncSetState st env = (env, false))
    ∨ (declared env.fsm st = true
       ∧ (asyncSetState st env).2 = true
       ∧ (asyncSetState st env).1.fsm.state = st
       ∧ (asyncSetState st env).1.fsm.timeoutUnsub = none
       ∧ (asyncSetState st env).1.timers = (cancelTimeout env).timers
       ∧ (asyncSetState st env).1.fsm.recent
           = env.fsm.recent ++ [⟨none, "set_state", env.fsm.state, st⟩]) := by
  by_cases h : declared env.fsm st = true
  · right
    obtain ⟨h1, h2, _, _, _, h6, h7, h8, _⟩ := asyncSetState_of_declared st env h
    exact ⟨h, h1, h2, h6, h8, h7⟩
  · left
    have hf : declared env.fsm st = false := Bool.eq_false_iff.mpr h
    exact ⟨hf, asyncSetState_of_undeclared st env hf⟩

theorem set_state_spec_witness :
    (asyncSetState "idle" ghostEnv).2 = true
    ∧ (asyncSetState "idle" ghostEnv).1.fsm.state = "idle" := by
  rcases set_state_spec "idle" ghostEnv with ⟨h1, _⟩ | ⟨_, h2, h3, _⟩
  · exact absurd h1 (by decide)
  · exact ⟨h2, h3⟩

/-- C10.  The guard passes exactly when the template renders without an
exception and the rendered value, stripped of surrounding whitespace
and lowercased, is one of `"1"`, `"true"`, `"yes"`, `"on"`; any other
value and any rendering exception yield guard-false. -/
theorem evalGuard_iff (render : String → Except Unit String) (expr : String) :
    evalGuard render expr = true ↔ guardPassesSpec render expr := by
  unfold evalGuard guardPassesSpec
  cases h : render expr with
  | error e => simp [h]
  | ok s =>
      simp [h]
      tauto

theorem evalGuard_iff_witness :
    evalGuard (renderOf " True ") "g" = true :=
  (evalGuard_iff (renderOf " True ") "g").mpr ⟨" True ", rfl, by decide⟩

theorem declared_congr {f g : FSM} (h : f.stateDefinitions = g.stateDefinitions)
    (n : String) : declared f n = declared g n := by
  unfold declared
  rw [h]

/-- C7.  An evaluator error inside the guard is folded into
guard-false: the call returns `false`, the environment is unchanged (no
state mutation, no timeout change), and the single emitted event is
`transition_failed` with reason `guard_false`; no exception escapes the
evaluation boundary (`evalGuard` is total and returns `false` here). -/
theorem guard_error_fail_closed (render : String → Except Unit String)
    (dispatch : String → String → Option String) (tid trig : String) (env : Env)
    (t : TransitionDef) (g : String)
    (hf : findTransition trig env.fsm.state env.fsm.transitions = some t)
    (hg : t.guard = some g)
    (he : render g = Except.error ()) :
    evalGuard render g = false
    ∧ asyncTrigger render dispatch tid trig env
      = { env := env, result := false,
          events := [{ kind := EventKind.failed, transitionId := some tid,
                       reason := some "guard_false", trig := some trig,
                       fromState := some env.fsm.state, toState := none,
                       guardValue := some (pyStrBool false), actionsStatus := none }] } := by
  have hev : evalGuard render g = false := by
    unfold evalGuard
    rw [he]
  refine ⟨hev, ?_⟩
  unfold asyncTrigger
  rw [hf]
  dsimp only
  rw [if_pos (by rw [hg]; simp [hev])]

theorem guard_error_fail_closed_witness :
    (asyncTrigger renderFail dispatchOk "w7" "go" guardEnv).result = false
    ∧ (asyncTrigger renderFail dispatchOk "w7" "go" guardEnv).env = guardEnv := by
  have h := guard_error_fail_closed renderFail dispatchOk "w7" "go" guardEnv
    guardT "expr" (by decide) rfl rfl
  rw [h.2]
  exact ⟨rfl, rfl⟩

/-- C5 counterexample.  With the permissively loaded undeclared initial
state `"ghost"`, move to `"idle"` by `set_state`, then call `reset()`
twice: `current_state` stays `"idle" ≠ initial`, and the history gained
no entry from either reset (1 entry total, not the 3 the claim
predicts). -/
theorem reset_twice_cex :
    ((asyncReset (asyncReset (asyncSetState "idle" ghostEnv).1).1).1).fsm.state
        ≠ ((asyncReset (asyncReset (asyncSetState "idle" ghostEnv).1).1).1).fsm.initial
    ∧ ((asyncReset (asyncReset (asyncSetState "idle" ghostEnv).1).1).1).fsm.recent.length
        = 1 := by
  decide

/-- C5 (amended).  `reset()` is exactly `set_state(initial_state)`;
when the configured initial state is a declared state, calling `reset()`
twice in a row is idempotent: each call sets `current_state` to
`initial_state` and appends one history entry (two entries total).
(With an undeclared initial state — permissively loaded — `reset()`
takes the `set_state` failure path: no mutation and no history entry.) -/
theorem reset_amended (env : Env)
    (hd : declared env.fsm env.fsm.initial = true) :
    asyncReset env = asyncSetState env.fsm.initial env
    ∧ ((asyncReset env).1).fsm.state = env.fsm.initial
    ∧ ((asyncReset (asyncReset env).1).1).fsm.state = env.fsm.initial
    ∧ ((asyncReset (asyncReset env).1).1).fsm.recent
        = env.fsm.recent
          ++ [⟨none, "set_state", env.fsm.state, env.fsm.initial⟩,
              ⟨none, "set_state", env.fsm.initial, env.fsm.initial⟩] := by
  have hre : ∀ e : Env, asyncReset e = asyncSetState e.fsm.initial e := fun _ => rfl
  obtain ⟨_, hstate, hinit, hdefs, _, _, hrecent, _, _⟩ :=
    asyncSetState_of_declared env.fsm.initial env hd
  have hd1 : declared (asyncSetState env.fsm.initial env).1.fsm
      ((asyncSetState env.fsm.initial env).1.fsm.initial) = true := by
    rw [hinit, declared_congr hdefs]
    exact hd
  obtain ⟨_, hstate2, _, _, _, _, hrecent2, _, _⟩ :=
    asyncSetState_of_declared (asyncSetState env.fsm.initial env).1.fsm.initial
      (asyncSetState env.fsm.initial env).1 hd1
  refine ⟨hre env, ?_, ?_, ?_⟩
  · simp only [hre]
    exact hstate
  · simp only [hre]
    rw [hstate2, hinit]
  · simp only [hre]
    rw [hrecent2, hrecent, hstate, hinit]
    simp

theorem reset_amended_witness :
    ((asyncReset loopEnv).1).fsm.state = loopEnv.fsm.initial
    ∧ ((asyncReset (asyncReset loopEnv).1).1).fsm.recent.length = 2 := by
  have h := reset_amended loopEnv (by decide)
  refine ⟨h.2.1, ?_⟩
  rw [h.2.2.2]
  rfl

/-- C4 counterexample.  A permissively loaded transition whose `dest`
is not a declared state: triggering it returns `true` and commits
`current_state = "nowhere"`, an undeclared name — with no configuration
swap involved. -/
theorem trigger_undeclared_dest_cex :
    (asyncTrigger renderFail dispatchOk "c4" "go" nowhereEnv).result = true
    ∧ (asyncTrigger renderFail dispatchOk "c4" "go" nowhereEnv).env.fsm.state = "nowhere"
    ∧ declared (asyncTrigger renderFail dispatchOk "c4" "go" nowhereEnv).env.fsm
        "nowhere" = false := by
  decide

/-- C4 (amended).  When every loaded transition's `dest` is declared
(and the current state is declared), `trigger` keeps `current_state`
declared; and after any `apply_config`, `current_state` is either
declared in the new configuration or has just been reset to the new
`initial_state`.  A permissively loaded transition whose `dest` is
undeclared, however, commits that undeclared name when triggered
(`async_trigger` writes `dest` without validating it). -/
theorem declared_state_amended (render : String → Except Unit String)
    (dispatch : String → String → Option String) (tid trig : String)
    (cfg : ConfigPatch) (env : Env)
    (hT : ∀ t ∈ env.fsm.transitions, declared env.fsm t.dest = true)
    (hs : declared env.fsm env.fsm.state = true) :
    declared (asyncTrigger render dispatch tid trig env).env.fsm
        ((asyncTrigger render dispatch tid trig env).env.fsm.state) = true
    ∧ (declared (asyncApplyConfig cfg env).fsm ((asyncApplyConfig cfg env).fsm.state) = true
       ∨ (asyncApplyConfig cfg env).fsm.state = (asyncApplyConfig cfg env).fsm.initial) := by
  constructor
  · cases hf : findTransition trig env.fsm.state env.fsm.transitions with
    | none =>
        unfold asyncTrigger
        rw [hf]
        exact hs
    | some t =>
        by_cases hg : t.guard.map (fun g => evalGuard render g) = some false
        · unfold asyncTrigger
          rw [hf]
          dsimp only
          rw [if_pos hg]
          exact hs
        · rw [asyncTrigger_eq_commit render dispatch tid trig env t hf hg]
          rw [declared_congr (commitTransition_stateDefinitions dispatch tid trig t _ env),
            commitTransition_state dispatch tid trig t _ env]
          exact hT t (findTransition_mem hf)
  · unfold asyncApplyConfig
    dsimp only
    split_ifs with h
    · exact Or.inl h
    · exact Or.inr rfl

theorem declared_state_amended_witness :
    declared (asyncTrigger renderFail dispatchOk "w4" "tick" loopEnv).env.fsm
        ((asyncTrigger renderFail dispatchOk "w4" "tick" loopEnv).env.fsm.state)
      = true := by
  have h := declared_state_amended renderFail dispatchOk "w4" "tick"
    ⟨none, none, none⟩ loopEnv (by decide) (by decide)
  exact h.1

/-- C8.  A committing `trigger` cancels the previously armed timeout
unconditionally and arms a new one exactly when the transition declares
a `timeout` with `seconds > 0` and a declared destination; when that
armed timeout later fires un-superseded, the state is set directly to
`timeout.dest`, a `{trigger: timeout, from, to}` history entry is
appended, and the pending-timeout handle is cleared. -/
theorem trigger_timeout_contract (render : String → Except Unit String)
    (dispatch : String → String → Option String) (tid trig : String) (env : Env)
    (t : TransitionDef)
    (hf : findTransition trig env.fsm.state env.fsm.transitions = some t)
    (hok : t.guard.map (fun g => evalGuard render g) ≠ some false)
    (hfresh : ∀ p ∈ env.timers, p.1 < env.nextId)
    (htasks : env.tasks = []) :
    (asyncTrigger render dispatch tid trig env).env.fsm.timeoutUnsub
        = (if armsTimeout env.fsm t then some env.nextId else none)
    ∧ (asyncTrigger render dispatch tid trig env).env.timers
        = (cancelTimeout env).timers ++ armedTimer env.fsm t env.nextId
    ∧ ∀ tc : TimeoutCfg, t.timeout = some tc → armsTimeout env.fsm t = true →
        (runTimeoutTask (fireTimer env.nextId
            (asyncTrigger render dispatch tid trig env).env)).fsm.state = tc.dest
        ∧ (runTimeoutTask (fireTimer env.nextId
            (asyncTrigger render dispatch tid trig env).env)).fsm.timeoutUnsub = none
        ∧ (runTimeoutTask (fireTimer env.nextId
            (asyncTrigger render dispatch tid trig env).env)).fsm.recent
            = (asyncTrigger render dispatch tid trig env).env.fsm.recent
              ++ [⟨none, "timeout", t.dest, tc.dest⟩]
        ∧ (runTimeoutTask (fireTimer env.nextId
            (asyncTrigger render dispatch tid trig env).env)).tasks = [] := by
  rw [asyncTrigger_eq_commit render dispatch tid trig env t hf hok]
  refine ⟨commitTransition_timeoutUnsub _ _ _ _ _ _,
    commitTransition_timers _ _ _ _ _ _, ?_⟩
  intro tc htc harm
  have harmT : armedTimer env.fsm t env.nextId = [(env.nextId, tc.dest)] := by
    simp [armedTimer, htc, harm]
  have h2 : (commitTransition dispatch tid trig t
      (t.guard.map fun g => evalGuard render g) env).env.timers
      = (cancelTimeout env).timers ++ [(env.nextId, tc.dest)] := by
    rw [commitTransition_timers, harmT]
  have htk : (commitTransition dispatch tid trig t
      (t.guard.map fun g => evalGuard render g) env).env.tasks = [] := by
    rw [commitTransition_tasks]
    exact htasks
  have hfind : (commitTransition dispatch tid trig t
      (t.guard.map fun g => evalGuard render g) env).env.timers.find?
        (fun p => p.1 == env.nextId) = some (env.nextId, tc.dest) := by
    rw [h2]
    refine find?_append_singleton _ _ _ ?_ (by simp)
    intro x hx
    have hlt := hfresh x (cancelTimeout_timers_subset env x hx)
    exact beq_eq_false_iff_ne.mpr (Nat.ne_of_lt hlt)
  have hfire : fireTimer env.nextId (commitTransition dispatch tid trig t
      (t.guard.map fun g => evalGuard render g) env).env
      = { fsm := (commitTransition dispatch tid trig t
            (t.guard.map fun g => evalGuard render g) env).env.fsm,
          timers := (commitTransition dispatch tid trig t
            (t.guard.map fun g => evalGuard render g) env).env.timers.filter
              (fun p => p.1 ≠ env.nextId),
          tasks := [tc.dest],
          nextId := (commitTransition dispatch tid trig t
            (t.guard.map fun g => evalGuard render g) env).env.nextId } := by
    unfold fireTimer
    rw [hfind]
    dsimp only
    rw [htk]
    rfl
  refine ⟨?_, ?_, ?_, ?_⟩
  · rw [hfire]
    rfl
  · rw [hfire]
    rfl
  · rw [hfire]
    show (commitTransition dispatch tid trig t
        (t.guard.map fun g => evalGuard render g) env).env.fsm.recent
        ++ [⟨none, "timeout", (commitTransition dispatch tid trig t
              (t.guard.map fun g => evalGuard render g) env).env.fsm.state, tc.dest⟩]
      = (commitTransition dispatch tid trig t
          (t.guard.map fun g => evalGuard render g) env).env.fsm.recent
        ++ [⟨none, "timeout", t.dest, tc.dest⟩]
    rw [commitTransition_state]
  · rw [hfire]
    rfl

theorem trigger_timeout_contract_witness :
    raceArmed.fsm.timeoutUnsub = some 0
    ∧ raceArmed.timers = [(0, "c")]
    ∧ (runTimeoutTask (fireTimer 0 raceArmed)).fsm.state = "c"
    ∧ (runTimeoutTask (fireTimer 0 raceArmed)).fsm.recent
        = raceArmed.fsm.recent ++ [⟨none, "timeout", "b", "c"⟩] := by
  have h := trigger_timeout_contract renderFail dispatchOk "t1" "go" raceEnv goT
    (by decide) (by decide) (by simp [raceEnv]) rfl
  have h3 := h.2.2 ⟨5, "c"⟩ rfl (by decide)
  exact ⟨h.1.trans (by decide), (h.2.1).trans (by decide), h3.1, h3.2.2.1⟩

/-- C2 refuted on the code.  Trace: `trigger("go")` arms timer 0
(towards `"c"`); timer 0 elapses and queues its task; `set_state("a")`
then takes the lock and cancels (supersedes) the timeout; yet when the
stale task runs it still commits `current_state = "c"` and appends a
history entry.  In a second interleaving, the stale task clears the
handle of freshly armed timer 1, after which arming timer 2 leaves two
timers simultaneously registered. -/
theorem superseded_timeout_not_noop :
    raceCancelled.fsm.timeoutUnsub = none
    ∧ raceCancelled.fsm.state = "a"
    ∧ raceLate.fsm.state = "c"
    ∧ raceLate.fsm.recent.length = raceCancelled.fsm.recent.length + 1
    ∧ raceRearmed.fsm.timeoutUnsub = some 1
    ∧ raceLate2.fsm.timeoutUnsub = none
    ∧ raceLate2.timers = [(1, "d")]
    ∧ raceTwoTimers.timers.length = 2 := by
  decide

/-- C3 refuted on the code.  `self._recent` is appended to on every
transition and never truncated: after 11 successful transitions it
holds 11 entries — the 10-entry bound only exists in the
`recent_transitions` attribute view (`self._recent[-10:]`). -/
theorem recent_history_unbounded :
    (tickN 11 loopEnv).fsm.recent.length = 11
    ∧ 10 < (tickN 11 loopEnv).fsm.recent.length
    ∧ (recentTransitions (tickN 11 loopEnv).fsm).length = 10 := by
  decide

end InputFsm
